import Mathlib

/-!
Shallow embedding of the serial protocol core of pool-pi (src/src/pool-pi.py):
the byte framer readSerialBus, the frame validator and dispatcher parseBuffer,
the command handshake functions checkCommand and getCommand. Python byte
strings become lists of natural numbers, the three mutable handler objects
become explicit records, and the wall clock becomes an explicit argument.
Collaborator modules of the repository (commands.py, model.py, parsing.py) are
not part of src; every definition taken from the spec instead of from source
carries a doc comment starting with the words Modelled from the spec.
-/

namespace PoolPi

def DLE : Nat := 0x10

def STX : Nat := 0x02

def ETX : Nat := 0x03

/-- Modelled from the spec: frame type code of a keep-alive frame. The
constants live in parsing.py, which is not part of src; section 8 of the spec
gives the two type bytes of a keep-alive frame as 0x4B 0x41. -/
def FRAME_TYPE_KEEPALIVE : List Nat := [0x4B, 0x41]

/-- Modelled from the spec: frame type code of a display update. The concrete
value is not given by the spec (parsing.py is not part of src); only its
distinctness from the keep-alive code matters to the claims. -/
def FRAME_TYPE_DISPLAY : List Nat := [0x01, 0x01]

/-- Modelled from the spec: frame type code of an indicator LED update; see
the comment on FRAME_TYPE_DISPLAY. -/
def FRAME_TYPE_LEDS : List Nat := [0x01, 0x02]

/-- Modelled from the spec: frame type code of a display update in service
mode; see the comment on FRAME_TYPE_DISPLAY. -/
def FRAME_TYPE_DISPLAY_SERVICE : List Nat := [0x01, 0x03]

/-- Modelled from the spec: frame type code of a service mode notice; see the
comment on FRAME_TYPE_DISPLAY. -/
def FRAME_TYPE_SERVICE_MODE : List Nat := [0x01, 0x04]

def stON : String := "ON"

def stOFF : String := "OFF"

def stBLINK : String := "BLINK"

def stINIT : String := "INIT"

def stNA : String := "NA"

def idService : String := "service"

def idPool : String := "pool"

def idSpa : String := "spa"

def idSpillover : String := "spillover"

def idPoolSpaSpillover : String := "pool-spa-spillover"

def idLeft : String := "left"

/-- State of the SerialHandler object (model.py). The buffer, the
buffer_full flag, the looking_for_start flag and the ready_to_send flag are
the fields pool-pi.py reads and writes; the sent field logs every byte
sequence written to the bus so that transmissions can be counted. -/
@[ext]
structure SerialHandler where
  buffer : List Nat
  buffer_full : Bool
  looking_for_start : Bool
  ready_to_send : Bool
  sent : List (List Nat)
deriving Repr, DecidableEq

/-- Modelled from the spec: SerialHandler.reset (model.py is not part of
src). The spec says a reset discards the buffer and resumes seeking the start
delimiter; parseBuffer also relies on it clearing the full-frame flag. -/
def SerialHandler.reset (sh : SerialHandler) : SerialHandler :=
  { sh with buffer := [], buffer_full := false, looking_for_start := true }

/-- Modelled from the spec: SerialHandler.send (model.py is not part of src)
writes a fully framed command onto the bus, recorded here as a log entry. -/
def SerialHandler.send (sh : SerialHandler) (cmd : List Nat) : SerialHandler :=
  { sh with sent := sh.sent ++ [cmd] }

/-- State of the PoolModel object (model.py). The parameter table is kept as
a function from parameter names to state strings; getParameterState reads it
and the display and LED decoders (out of scope collaborators) replace it. -/
@[ext]
structure PoolModel where
  timestamp : Nat
  version : Nat
  params : String → String
  sending_message : Bool
  flag_data_changed : Bool

def PoolModel.getParameterState (pm : PoolModel) (p : String) : String :=
  pm.params p

/-- State of the CommandHandler object (commands.py). -/
@[ext]
structure CommandHandler where
  keep_alive_count : Nat
  sending_message : Bool
  confirm : Bool
  parameter : String
  target_state : String
  full_command : List Nat
  last_model_timestamp_seen : Nat
  attempts_remaining : Nat
deriving Repr, DecidableEq

/-- Modelled from the spec: the framed byte encoding of an outbound command
is explicitly out of scope in section 4.4 of the spec; it is kept as an
arbitrary fixed injection of the command identifier into bytes. -/
def encodeCommand (commandID : String) : List Nat :=
  commandID.toList.map Char.toNat

/-- Modelled from the spec: CommandHandler.initiateSend (commands.py is not
part of src). Per sections 3 and 4.4 of the spec, accepting a new command
populates the handshake state: it records the target parameter, the desired
value and the confirmation flag, marks a command in flight, resets the count
of keep-alive frames seen since arming to zero, restores the attempt budget,
records the current time as the low-water mark and stores the framed command
bytes. -/
def CommandHandler.initiateSend (ch : CommandHandler) (now budget : Nat)
    (commandID desiredState : String) (conf : Bool) : CommandHandler :=
  { ch with
    parameter := commandID
    target_state := desiredState
    confirm := conf
    sending_message := true
    keep_alive_count := 0
    attempts_remaining := budget
    last_model_timestamp_seen := now
    full_command := encodeCommand commandID }

/-- Modelled from the spec: CommandHandler.sendAttemptsRemain (commands.py is
not part of src). Per sections 4.4 and 7 of the spec, when attempts remain one
unit of the budget is consumed and true is returned; when the budget is
exhausted the command is dropped silently back to idle and false is
returned. -/
def CommandHandler.sendAttemptsRemain (ch : CommandHandler) :
    Bool × CommandHandler :=
  if 0 < ch.attempts_remaining then
    (true, { ch with attempts_remaining := ch.attempts_remaining - 1 })
  else
    (false, { ch with sending_message := false })

/-- Combined state of the three handler objects threaded through the main
loop of pool-pi.py. -/
@[ext]
structure Sys where
  pm : PoolModel
  sh : SerialHandler
  ch : CommandHandler

/-- Embedding of readSerialBus. The serial port is a list of pending bytes;
the function returns the updated handler together with the bytes it did not
consume. Reading one byte from the port consumes the head of the list; an
empty list is the case in which in_waiting returns zero. -/
def readSerialBus (sh : SerialHandler) (input : List Nat) :
    SerialHandler × List Nat :=
  match input with
  | [] => (sh, [])
  | serChar :: rest =>
    if sh.buffer_full then
      (sh, serChar :: rest)
    else if sh.looking_for_start then
      if serChar = DLE then
        match rest with
        | [] => (sh, [])
        | serChar2 :: rest2 =>
          if serChar2 = STX then
            ({ sh with buffer := [DLE, STX], looking_for_start := false },
              rest2)
          else
            (sh, rest2)
      else
        (sh, rest)
    else
      let buf := sh.buffer ++ [serChar]
      if serChar = ETX ∧ sh.buffer.getLast? = some DLE then
        ({ sh with
            buffer := buf
            buffer_full := true
            looking_for_start := true }, rest)
      else
        ({ sh with buffer := buf }, rest)

/-- Embedding of the destuffing step of parseBuffer: the Python expression
frame.replace of the pattern 0x10 0x00 by 0x10, which rewrites occurrences
from left to right without overlap. -/
def destuff : List Nat → List Nat
  | [] => []
  | [b] => [b]
  | b1 :: b2 :: rest =>
    if b1 = 0x10 ∧ b2 = 0x00 then 0x10 :: destuff rest
    else b1 :: destuff (b2 :: rest)

/-- Containment of a two byte sequence as a contiguous subsequence, the
Python membership test of a two byte pattern in a byte string. -/
def hasPair (a b : Nat) : List Nat → Bool
  | x :: y :: rest => (x == a && y == b) || hasPair a b (y :: rest)
  | _ => false

/-- The Python slice frame[2:-2], the region between the outer two byte
start and end markers. -/
def sliceInterior (l : List Nat) : List Nat :=
  (l.drop 2).take (l.length - 4)

/-- The Python slice frame[2:4], the two frame type bytes. -/
def frameTypeOf (frame : List Nat) : List Nat :=
  (frame.drop 2).take 2

/-- The Python slice frame[4:-4], the payload bytes. -/
def frameDataOf (frame : List Nat) : List Nat :=
  (frame.drop 4).take (frame.length - 8)

/-- Modelled from the spec: confirmChecksum (parsing.py is not part of src).
Section 4.2 of the spec says the checksum is computed over type plus payload
and compared to the trailing two byte checksum field; the sum of the bytes
modulo two to the sixteenth stands for the unspecified algorithm. -/
def confirmChecksum (frame : List Nat) : Bool :=
  let body := (frame.drop 2).take (frame.length - 6)
  let stored := frame.getD (frame.length - 4) 0 * 256 +
    frame.getD (frame.length - 3) 0
  (body.foldl (· + ·) 0) % 65536 == stored % 65536

/-- The acceptance test of parseBuffer on a completed buffer: after
destuffing, no spurious start delimiter in the interior, no spurious end
delimiter in the interior, and a matching checksum. -/
def frameAccepted (buffer : List Nat) : Bool :=
  let frame := destuff buffer
  !hasPair 0x10 0x02 (sliceInterior frame) &&
    (!hasPair 0x10 0x03 (sliceInterior frame) && confirmChecksum frame)

/-- Embedding of parseBuffer. The display and LED payload decoders live in
parsing.py (out of scope collaborators per the spec); they are taken as
function arguments so that every theorem quantifies over them. -/
def parseBuffer (pdisp pleds : List Nat → PoolModel → PoolModel)
    (s : Sys) : Sys :=
  if s.sh.buffer_full then
    let frame := destuff s.sh.buffer
    if hasPair 0x10 0x02 (sliceInterior frame) then
      { s with sh := s.sh.reset }
    else if hasPair 0x10 0x03 (sliceInterior frame) then
      { s with sh := s.sh.reset }
    else if confirmChecksum frame = false then
      { s with sh := s.sh.reset }
    else
      let frameType := frameTypeOf frame
      let data := frameDataOf frame
      if frameType = FRAME_TYPE_KEEPALIVE then
        if s.sh.ready_to_send = true then
          if s.ch.keep_alive_count = 1 then
            let sh1 := s.sh.send s.ch.full_command
            let ch1 :=
              if s.ch.confirm = false then
                { s.ch with sending_message := false }
              else s.ch
            { s with
              sh := SerialHandler.reset { sh1 with ready_to_send := false }
              ch := ch1 }
          else
            { s with
              sh := s.sh.reset
              ch := { s.ch with keep_alive_count := 1 } }
        else
          { s with
            sh := s.sh.reset
            ch := { s.ch with keep_alive_count := 0 } }
      else
        let pm1 :=
          if frameType = FRAME_TYPE_DISPLAY then pdisp data s.pm
          else if frameType = FRAME_TYPE_LEDS then pleds data s.pm
          else if frameType = FRAME_TYPE_DISPLAY_SERVICE then pdisp data s.pm
          else s.pm
        { s with
          pm := pm1
          sh := s.sh.reset
          ch := { s.ch with keep_alive_count := 0 } }
  else s

/-- Embedding of checkCommand. The call to time.time() becomes the explicit
argument now. -/
def checkCommand (now : Nat) (s : Sys) : Sys :=
  if s.ch.sending_message = false then s
  else if s.sh.ready_to_send = true then s
  else if s.ch.last_model_timestamp_seen ≤ s.pm.timestamp then
    if s.pm.getParameterState s.ch.parameter = s.ch.target_state then
      { s with
        pm := { s.pm with sending_message := false, flag_data_changed := true }
        ch := { s.ch with sending_message := false } }
    else
      let res := s.ch.sendAttemptsRemain
      if res.1 = true then
        { s with
          sh := { s.sh with ready_to_send := true }
          ch := { res.2 with last_model_timestamp_seen := now } }
      else { s with ch := res.2 }
  else s

/-- Embedding of getCommand. The command queue file becomes an optional
already split record of command identifier and front end version; the
membership tables button_toggle and buttons_menu (commands.py, not part of
src) and the attempt budget are arguments. Branches of the source that only
truncate the file and return leave the state unchanged. -/
def getCommand (button_toggle buttons_menu : List String) (now budget : Nat)
    (cmd : Option (String × Nat)) (s : Sys) : Sys :=
  if s.ch.sending_message = true then s
  else
    match cmd with
    | none => s
    | some (commandID0, frontEndVersion) =>
      if frontEndVersion ≠ s.pm.version then s
      else if button_toggle.contains commandID0 ||
          commandID0 == idPoolSpaSpillover then
        let commandID :=
          if commandID0 = idPoolSpaSpillover then
            if s.pm.getParameterState idPool = stON then idPool
            else if s.pm.getParameterState idSpa = stON then idSpa
            else idSpillover
          else commandID0
        if s.pm.getParameterState commandID = stINIT then s
        else
          let currentState := s.pm.getParameterState commandID
          let desiredState :=
            if commandID = idService then
              if currentState = stON then stBLINK
              else if currentState = stBLINK then stOFF
              else stON
            else
              if currentState = stON then stOFF else stON
          { s with
            pm := { s.pm with sending_message := true }
            ch := s.ch.initiateSend now budget commandID desiredState true }
      else if buttons_menu.contains commandID0 then
        { s with
          sh := { s.sh with ready_to_send := true }
          ch := s.ch.initiateSend now budget commandID0 stNA false }
      else
        s

/-- Modelled from the spec: the transmitter side stuffing transform (the
outbound encoder is not part of src). Section 6 of the spec: the stuffing
escape is the literal byte 0x10 followed by 0x00 standing for a payload byte
of 0x10, so stuffing writes each 0x10 as 0x10 0x00. -/
def stuff : List Nat → List Nat
  | [] => []
  | b :: rest =>
    if b = 0x10 then 0x10 :: 0x00 :: stuff rest else b :: stuff rest

/-- Helper placing a completed frame into the buffer of a system state, the
situation parseBuffer finds after the framer finished a frame. -/
def withFrame (s : Sys) (f : List Nat) : Sys :=
  { s with sh := { s.sh with buffer := f, buffer_full := true } }

/-- A concrete valid keep-alive frame: delimiters, the keep-alive type
bytes, no payload and a matching checksum. -/
def kaFrame : List Nat := [0x10, 0x02, 0x4B, 0x41, 0x00, 0x8C, 0x10, 0x03]

/-- A concrete valid display update frame with empty payload. -/
def displayFrame : List Nat := [0x10, 0x02, 0x01, 0x01, 0x00, 0x02, 0x10, 0x03]

/-- A concrete completed frame whose checksum field does not match. -/
def badChecksumFrame : List Nat :=
  [0x10, 0x02, 0x4B, 0x41, 0x00, 0x00, 0x10, 0x03]

/-- A concrete completed frame with a spurious start delimiter inside. -/
def spuriousFrame : List Nat :=
  [0x10, 0x02, 0x10, 0x02, 0x00, 0x14, 0x10, 0x03]

def pmEx : PoolModel :=
  { timestamp := 0, version := 1, params := fun _ => stOFF,
    sending_message := false, flag_data_changed := false }

def shEx : SerialHandler :=
  { buffer := [], buffer_full := false, looking_for_start := true,
    ready_to_send := false, sent := [] }

def chEx : CommandHandler :=
  { keep_alive_count := 0, sending_message := false, confirm := false,
    parameter := idPool, target_state := stON, full_command := [],
    last_model_timestamp_seen := 0, attempts_remaining := 0 }

def sysEx : Sys := { pm := pmEx, sh := shEx, ch := chEx }

/-- A decoder standing for parseDisplay in concrete witnesses: it leaves the
model unchanged. -/
def decoderId : List Nat → PoolModel → PoolModel := fun _ pm => pm

theorem kaFrame_no_stx : hasPair 0x10 0x02 (sliceInterior (destuff kaFrame)) = false := by
  decide

theorem kaFrame_no_etx : hasPair 0x10 0x03 (sliceInterior (destuff kaFrame)) = false := by
  decide

theorem kaFrame_checksum : confirmChecksum (destuff kaFrame) = true := by
  decide

theorem kaFrame_type : frameTypeOf (destuff kaFrame) = FRAME_TYPE_KEEPALIVE := by
  decide

theorem displayFrame_no_stx :
    hasPair 0x10 0x02 (sliceInterior (destuff displayFrame)) = false := by
  decide

theorem displayFrame_no_etx :
    hasPair 0x10 0x03 (sliceInterior (destuff displayFrame)) = false := by
  decide

theorem displayFrame_checksum : confirmChecksum (destuff displayFrame) = true := by
  decide

theorem displayFrame_type : frameTypeOf (destuff displayFrame) = FRAME_TYPE_DISPLAY := by
  decide

theorem displayFrame_not_ka : ¬frameTypeOf (destuff displayFrame) = FRAME_TYPE_KEEPALIVE := by
  decide

theorem display_ne_ka : ¬FRAME_TYPE_DISPLAY = FRAME_TYPE_KEEPALIVE := by
  decide

theorem displayFrame_data : frameDataOf (destuff displayFrame) = [] := by
  decide

/-- Every completed buffer failing the acceptance test makes parseBuffer
reset the serial handler and touch nothing else. -/
theorem parseBuffer_rejected (pdisp pleds : List Nat → PoolModel → PoolModel)
    (s : Sys) (hfull : s.sh.buffer_full = true)
    (hrej : frameAccepted s.sh.buffer = false) :
    parseBuffer pdisp pleds s = { s with sh := s.sh.reset } := by
  unfold frameAccepted at hrej
  unfold parseBuffer
  rw [hfull]
  cases h1 : hasPair 0x10 0x02 (sliceInterior (destuff s.sh.buffer)) with
  | true => simp [h1]
  | false =>
    cases h2 : hasPair 0x10 0x03 (sliceInterior (destuff s.sh.buffer)) with
    | true => simp [h1, h2]
    | false =>
      cases h3 : confirmChecksum (destuff s.sh.buffer) with
      | false => simp [h1, h2, h3]
      | true =>
        exfalso
        simp [h1, h2, h3] at hrej

/-- A valid keep-alive frame processed while ready to send with a heartbeat
count other than one: no transmission, the count is set to one. -/
theorem parseBuffer_ka_first (pdisp pleds : List Nat → PoolModel → PoolModel)
    (s : Sys) (hready : s.sh.ready_to_send = true)
    (hcount : ¬s.ch.keep_alive_count = 1) :
    parseBuffer pdisp pleds (withFrame s kaFrame) =
      { s with sh := s.sh.reset, ch := { s.ch with keep_alive_count := 1 } } := by
  unfold parseBuffer withFrame
  simp [kaFrame_no_stx, kaFrame_no_etx, kaFrame_checksum, kaFrame_type,
    hready, hcount, SerialHandler.reset]

/-- A valid keep-alive frame processed while ready to send with a heartbeat
count of one and a confirmation-required command: the command is transmitted,
the ready flag drops, the command stays in flight. -/
theorem parseBuffer_ka_send_confirm
    (pdisp pleds : List Nat → PoolModel → PoolModel) (s : Sys)
    (hready : s.sh.ready_to_send = true) (hcount : s.ch.keep_alive_count = 1)
    (hconf : s.ch.confirm = true) :
    parseBuffer pdisp pleds (withFrame s kaFrame) =
      { s with
        sh := { buffer := [], buffer_full := false, looking_for_start := true,
                ready_to_send := false,
                sent := s.sh.sent ++ [s.ch.full_command] } } := by
  unfold parseBuffer withFrame
  simp [kaFrame_no_stx, kaFrame_no_etx, kaFrame_checksum, kaFrame_type,
    hready, hcount, hconf, SerialHandler.reset, SerialHandler.send]

/-- A valid keep-alive frame processed while ready to send with a heartbeat
count of one and a fire-and-forget command: the command is transmitted, the
ready flag drops and the machine returns to idle. -/
theorem parseBuffer_ka_send_noconfirm
    (pdisp pleds : List Nat → PoolModel → PoolModel) (s : Sys)
    (hready : s.sh.ready_to_send = true) (hcount : s.ch.keep_alive_count = 1)
    (hconf : s.ch.confirm = false) :
    parseBuffer pdisp pleds (withFrame s kaFrame) =
      { s with
        sh := { buffer := [], buffer_full := false, looking_for_start := true,
                ready_to_send := false,
                sent := s.sh.sent ++ [s.ch.full_command] }
        ch := { s.ch with sending_message := false } } := by
  unfold parseBuffer withFrame
  simp [kaFrame_no_stx, kaFrame_no_etx, kaFrame_checksum, kaFrame_type,
    hready, hcount, hconf, SerialHandler.reset, SerialHandler.send]

/-- A valid keep-alive frame processed while not ready to send zeroes the
heartbeat count and transmits nothing. -/
theorem parseBuffer_ka_notready (pdisp pleds : List Nat → PoolModel → PoolModel)
    (s : Sys) (hready : s.sh.ready_to_send = false) :
    parseBuffer pdisp pleds (withFrame s kaFrame) =
      { s with sh := s.sh.reset, ch := { s.ch with keep_alive_count := 0 } } := by
  unfold parseBuffer withFrame
  simp [kaFrame_no_stx, kaFrame_no_etx, kaFrame_checksum, kaFrame_type,
    hready, SerialHandler.reset]

/-- A valid display frame zeroes the heartbeat count, routes the payload to
the display decoder and transmits nothing. -/
theorem parseBuffer_display (pdisp pleds : List Nat → PoolModel → PoolModel)
    (s : Sys) :
    parseBuffer pdisp pleds (withFrame s displayFrame) =
      { s with
        pm := pdisp [] s.pm
        sh := s.sh.reset
        ch := { s.ch with keep_alive_count := 0 } } := by
  unfold parseBuffer withFrame
  simp [displayFrame_no_stx, displayFrame_no_etx, displayFrame_checksum,
    displayFrame_type, displayFrame_not_ka, display_ne_ka, displayFrame_data,
    SerialHandler.reset]

/-- With no command in flight checkCommand does nothing. -/
theorem checkCommand_idle (now : Nat) (s : Sys)
    (hsend : s.ch.sending_message = false) :
    checkCommand now s = s := by
  unfold checkCommand
  simp [hsend]

/-- While already awaiting a keep-alive slot checkCommand does nothing. -/
theorem checkCommand_awaiting (now : Nat) (s : Sys)
    (hready : s.sh.ready_to_send = true) :
    checkCommand now s = s := by
  unfold checkCommand
  by_cases hsend : s.ch.sending_message = false <;> simp [hsend, hready]

/-- With a model older than the low-water mark checkCommand does nothing. -/
theorem checkCommand_stale (now : Nat) (s : Sys)
    (hlt : s.pm.timestamp < s.ch.last_model_timestamp_seen) :
    checkCommand now s = s := by
  unfold checkCommand
  by_cases hsend : s.ch.sending_message = false
  · simp [hsend]
  · by_cases hready : s.sh.ready_to_send = true <;>
      simp [hsend, hready, Nat.not_le.mpr hlt]

/-- With a fresh model matching the desired value checkCommand confirms the
command and returns the machine to idle. -/
theorem checkCommand_success (now : Nat) (s : Sys)
    (hsend : s.ch.sending_message = true) (hready : s.sh.ready_to_send = false)
    (hle : s.ch.last_model_timestamp_seen ≤ s.pm.timestamp)
    (hmatch : s.pm.getParameterState s.ch.parameter = s.ch.target_state) :
    checkCommand now s =
      { s with
        pm := { s.pm with sending_message := false, flag_data_changed := true }
        ch := { s.ch with sending_message := false } } := by
  unfold checkCommand
  simp [hsend, hready, hle, hmatch]

/-- With a fresh model not matching the desired value and attempts left,
checkCommand consumes one attempt, arms the keep-alive wait and moves the
low-water mark to the current time. -/
theorem checkCommand_retry (now : Nat) (s : Sys)
    (hsend : s.ch.sending_message = true) (hready : s.sh.ready_to_send = false)
    (hle : s.ch.last_model_timestamp_seen ≤ s.pm.timestamp)
    (hmis : ¬s.pm.getParameterState s.ch.parameter = s.ch.target_state)
    (hatt : 0 < s.ch.attempts_remaining) :
    checkCommand now s =
      { s with
        sh := { s.sh with ready_to_send := true }
        ch := { s.ch with
                attempts_remaining := s.ch.attempts_remaining - 1
                last_model_timestamp_seen := now } } := by
  unfold checkCommand CommandHandler.sendAttemptsRemain
  simp [hsend, hready, hle, hmis, hatt]

/-- With a fresh model not matching the desired value and the budget
exhausted, checkCommand drops the command back to idle. -/
theorem checkCommand_abandon (now : Nat) (s : Sys)
    (hsend : s.ch.sending_message = true) (hready : s.sh.ready_to_send = false)
    (hle : s.ch.last_model_timestamp_seen ≤ s.pm.timestamp)
    (hmis : ¬s.pm.getParameterState s.ch.parameter = s.ch.target_state)
    (hatt : s.ch.attempts_remaining = 0) :
    checkCommand now s =
      { s with ch := { s.ch with sending_message := false } } := by
  unfold checkCommand CommandHandler.sendAttemptsRemain
  simp [hsend, hready, hle, hmis, hatt]

def c2state : Sys :=
  { pm := { pmEx with timestamp := 5, params := fun _ => stON }
    sh := shEx
    ch := { chEx with sending_message := true, last_model_timestamp_seen := 5 } }

/-- C2 counterexample: an external-state update whose timestamp is exactly
equal to the recorded low-water mark does trigger the confirmation check in
checkCommand (the source compares with greater-or-equal, not strictly
greater), contradicting the claim that equal timestamps trigger no state
change: here it flips the in-flight flag. -/
theorem c2_counterexample :
    c2state.pm.timestamp = c2state.ch.last_model_timestamp_seen ∧
    c2state.ch.sending_message = true ∧
    (checkCommand 9 c2state).ch.sending_message = false := by
  refine ⟨rfl, rfl, ?_⟩
  decide

/-- C2 amended: while a command is in the Transmitted state, the comparison
of the live value against the desired value is performed exactly on updates
whose timestamp is equal to or newer than the low-water mark; strictly older
updates trigger no confirmation check, no retry and no state change. -/
theorem c2_low_water_mark (now : Nat) (s : Sys)
    (hsend : s.ch.sending_message = true)
    (hready : s.sh.ready_to_send = false) :
    (s.pm.timestamp < s.ch.last_model_timestamp_seen → checkCommand now s = s) ∧
    (s.ch.last_model_timestamp_seen ≤ s.pm.timestamp →
      (s.pm.getParameterState s.ch.parameter = s.ch.target_state →
        (checkCommand now s).ch.sending_message = false ∧
        (checkCommand now s).pm.flag_data_changed = true) ∧
      (¬s.pm.getParameterState s.ch.parameter = s.ch.target_state →
        0 < s.ch.attempts_remaining →
        (checkCommand now s).sh.ready_to_send = true ∧
        (checkCommand now s).ch.last_model_timestamp_seen = now ∧
        (checkCommand now s).ch.attempts_remaining =
          s.ch.attempts_remaining - 1)) := by
  refine ⟨fun hlt => checkCommand_stale now s hlt, fun hle => ⟨?_, ?_⟩⟩
  · intro hmatch
    rw [checkCommand_success now s hsend hready hle hmatch]
    exact ⟨rfl, rfl⟩
  · intro hmis hatt
    rw [checkCommand_retry now s hsend hready hle hmis hatt]
    exact ⟨rfl, rfl, rfl⟩

theorem c2_low_water_mark_witness :
    c2state.ch.sending_message = true ∧ c2state.sh.ready_to_send = false ∧
    (c2state.pm.timestamp < c2state.ch.last_model_timestamp_seen →
      checkCommand 9 c2state = c2state) :=
  ⟨rfl, rfl, (c2_low_water_mark 9 c2state rfl rfl).1⟩

/-- C3 counterexample: while seeking the start delimiter, one invocation of
the framer that reads a delimiter byte reads a second byte as well, so two
bytes are consumed from the input, contradicting the claim of at most one
byte per invocation in every state. -/
theorem c3_counterexample :
    (readSerialBus shEx [0x10, 0x02, 0x63]).2 = [0x63] ∧
    ([0x63] : List Nat) ≠ List.drop 1 [0x10, 0x02, 0x63] ∧
    ([0x63] : List Nat) ≠ [0x10, 0x02, 0x63] := by
  refine ⟨?_, ?_, ?_⟩ <;> decide

/-- C3 amended: every invocation of the framer consumes at most two bytes
from the input stream, and it consumes a second byte only while seeking the
start delimiter after reading the delimiter byte DLE; in every other
situation it consumes at most one byte. -/
theorem c3_at_most_two_bytes (sh : SerialHandler) (input : List Nat) :
    ∃ k, k ≤ 2 ∧ (readSerialBus sh input).2 = input.drop k ∧
      (k = 2 → sh.looking_for_start = true ∧ input.head? = some DLE) := by
  cases input with
  | nil => exact ⟨0, by norm_num, by simp [readSerialBus], by simp⟩
  | cons c rest =>
    cases hf : sh.buffer_full with
    | true => exact ⟨0, by norm_num, by simp [readSerialBus, hf], by simp⟩
    | false =>
      cases hl : sh.looking_for_start with
      | true =>
        by_cases hc : c = DLE
        · cases rest with
          | nil =>
            refine ⟨1, by norm_num, ?_, by simp⟩
            simp [readSerialBus, hf, hl, hc]
          | cons c2 rest2 =>
            refine ⟨2, by norm_num, ?_, fun _ => ⟨rfl, by simp [hc]⟩⟩
            by_cases hc2 : c2 = STX <;> simp [readSerialBus, hf, hl, hc, hc2]
        · refine ⟨1, by norm_num, ?_, by simp⟩
          simp [readSerialBus, hf, hl, hc]
      | false =>
        refine ⟨1, by norm_num, ?_, by simp⟩
        unfold readSerialBus
        simp only [hf, hl, Bool.false_eq_true, if_false, List.drop_succ_cons,
          List.drop_zero]
        split <;> rfl

def sh5 : SerialHandler :=
  { buffer := kaFrame, buffer_full := true, looking_for_start := true,
    ready_to_send := false, sent := [] }

/-- C5 counterexample: with an undrained complete frame in the buffer, a feed
invocation leaves the pending byte in the input stream rather than dropping
it, contradicting the parenthetical of the claim that new bytes are dropped:
a dropped byte would be consumed and gone, here the byte is still pending. -/
theorem c5_counterexample :
    (readSerialBus sh5 [0x42]).1 = sh5 ∧
    (readSerialBus sh5 [0x42]).2 = [0x42] ∧
    ([0x42] : List Nat) ≠ [] := by
  refine ⟨?_, ?_, ?_⟩ <;> decide

/-- C5 amended: once the framer marks a frame complete, every feed invocation
before the caller drains the frame changes nothing at all: the accumulation
buffer and the completed frame stay unchanged and the pending input bytes are
left unread rather than appended, so an unconsumed complete frame is never
clobbered by later input. -/
theorem c5_full_frame_backpressure (sh : SerialHandler) (input : List Nat)
    (hfull : sh.buffer_full = true) :
    readSerialBus sh input = (sh, input) := by
  cases input with
  | nil => rfl
  | cons c rest => simp [readSerialBus, hfull]

theorem c5_full_frame_backpressure_witness :
    sh5.buffer_full = true ∧ readSerialBus sh5 [0x42] = (sh5, [0x42]) :=
  ⟨rfl, c5_full_frame_backpressure sh5 [0x42] rfl⟩

/-- C6: every completed frame that after destuffing carries a spurious start
or end delimiter sequence in the region between the outer markers, or whose
computed checksum differs from the trailing checksum field, is rejected by
parseBuffer: the serial handler is reset to seeking-start with the buffer
discarded and the full-frame flag cleared, no parse happens and neither the
pool model nor the command handler changes. -/
theorem c6_validation_rejects (pdisp pleds : List Nat → PoolModel → PoolModel)
    (s : Sys) (hfull : s.sh.buffer_full = true)
    (hrej : hasPair 0x10 0x02 (sliceInterior (destuff s.sh.buffer)) = true ∨
      hasPair 0x10 0x03 (sliceInterior (destuff s.sh.buffer)) = true ∨
      confirmChecksum (destuff s.sh.buffer) = false) :
    parseBuffer pdisp pleds s = { s with sh := s.sh.reset } ∧
    (s.sh.reset).buffer = [] ∧ (s.sh.reset).buffer_full = false ∧
    (s.sh.reset).looking_for_start = true ∧
    (parseBuffer pdisp pleds s).pm = s.pm ∧
    (parseBuffer pdisp pleds s).ch = s.ch := by
  have hacc : frameAccepted s.sh.buffer = false := by
    unfold frameAccepted
    rcases hrej with h | h | h <;> simp [h]
  have heq := parseBuffer_rejected pdisp pleds s hfull hacc
  refine ⟨heq, rfl, rfl, rfl, ?_, ?_⟩ <;> rw [heq]

def s6 : Sys := withFrame sysEx badChecksumFrame

theorem c6_validation_rejects_witness :
    s6.sh.buffer_full = true ∧
    confirmChecksum (destuff s6.sh.buffer) = false ∧
    parseBuffer decoderId decoderId s6 = { s6 with sh := s6.sh.reset } :=
  ⟨rfl, by decide,
    (c6_validation_rejects decoderId decoderId s6 rfl
      (Or.inr (Or.inr (by decide)))).1⟩

theorem destuff_cons_ne (b : Nat) (l : List Nat) (hb : ¬b = 0x10) :
    destuff (b :: l) = b :: destuff l := by
  cases l with
  | nil => rfl
  | cons x l2 => simp [destuff, hb]

theorem destuff_escape (l : List Nat) :
    destuff (0x10 :: 0x00 :: l) = 0x10 :: destuff l := by
  simp [destuff]

/-- C7: destuffing is the inverse of stuffing: for every byte sequence,
stuffing every 0x10 into 0x10 0x00 and then destuffing left to right yields
the original sequence. -/
theorem c7_destuff_stuff (P : List Nat) : destuff (stuff P) = P := by
  induction P with
  | nil => rfl
  | cons b rest ih =>
    by_cases hb : b = 0x10
    · subst hb
      rw [stuff, if_pos rfl, destuff_escape, ih]
    · rw [stuff, if_neg hb, destuff_cons_ne b (stuff rest) hb, ih]

/-- C10: a completed frame that fails validation leaves the handshake state
entirely unchanged: the command handler (in particular the keep-alive
heartbeat counter) is untouched, nothing is transmitted, the pool model is
not updated, and only the serial handler is reset; by contrast a valid
non-keep-alive frame zeroes the heartbeat counter. -/
theorem c10_reject_preserves_handshake
    (pdisp pleds : List Nat → PoolModel → PoolModel) (s : Sys)
    (hfull : s.sh.buffer_full = true)
    (hrej : frameAccepted s.sh.buffer = false) :
    (parseBuffer pdisp pleds s).ch = s.ch ∧
    (parseBuffer pdisp pleds s).ch.keep_alive_count = s.ch.keep_alive_count ∧
    (parseBuffer pdisp pleds s).pm = s.pm ∧
    (parseBuffer pdisp pleds s).sh.sent = s.sh.sent ∧
    (parseBuffer pdisp pleds s).sh = s.sh.reset ∧
    (parseBuffer pdisp pleds (withFrame s displayFrame)).ch.keep_alive_count
      = 0 := by
  have heq := parseBuffer_rejected pdisp pleds s hfull hrej
  have hd := parseBuffer_display pdisp pleds s
  refine ⟨?_, ?_, ?_, ?_, ?_, ?_⟩
  · rw [heq]
  · rw [heq]
  · rw [heq]
  · rw [heq]
    rfl
  · rw [heq]
  · rw [hd]

def s10 : Sys :=
  { withFrame sysEx spuriousFrame with
    ch := { chEx with keep_alive_count := 1 } }

theorem c10_reject_preserves_handshake_witness :
    s10.sh.buffer_full = true ∧ frameAccepted s10.sh.buffer = false ∧
    (parseBuffer decoderId decoderId s10).ch = s10.ch :=
  ⟨rfl, by decide,
    (c10_reject_preserves_handshake decoderId decoderId s10 rfl (by decide)).1⟩

theorem ka_first_sent (pdisp pleds : List Nat → PoolModel → PoolModel)
    (t : Sys) (hr : t.sh.ready_to_send = true)
    (hc : ¬t.ch.keep_alive_count = 1) :
    (parseBuffer pdisp pleds (withFrame t kaFrame)).sh.sent = t.sh.sent := by
  rw [parseBuffer_ka_first pdisp pleds t hr hc]
  rfl

theorem ka_first_count (pdisp pleds : List Nat → PoolModel → PoolModel)
    (t : Sys) (hr : t.sh.ready_to_send = true)
    (hc : ¬t.ch.keep_alive_count = 1) :
    (parseBuffer pdisp pleds (withFrame t kaFrame)).ch.keep_alive_count = 1 := by
  rw [parseBuffer_ka_first pdisp pleds t hr hc]

theorem ka_first_ready (pdisp pleds : List Nat → PoolModel → PoolModel)
    (t : Sys) (hr : t.sh.ready_to_send = true)
    (hc : ¬t.ch.keep_alive_count = 1) :
    (parseBuffer pdisp pleds (withFrame t kaFrame)).sh.ready_to_send
      = t.sh.ready_to_send := by
  rw [parseBuffer_ka_first pdisp pleds t hr hc]
  rfl

theorem ka_first_full_command (pdisp pleds : List Nat → PoolModel → PoolModel)
    (t : Sys) (hr : t.sh.ready_to_send = true)
    (hc : ¬t.ch.keep_alive_count = 1) :
    (parseBuffer pdisp pleds (withFrame t kaFrame)).ch.full_command
      = t.ch.full_command := by
  rw [parseBuffer_ka_first pdisp pleds t hr hc]

/-- In the slot-granted situation the command is transmitted whether or not
it requires confirmation. -/
theorem ka_send_sent (pdisp pleds : List Nat → PoolModel → PoolModel)
    (t : Sys) (hr : t.sh.ready_to_send = true)
    (hc : t.ch.keep_alive_count = 1) :
    (parseBuffer pdisp pleds (withFrame t kaFrame)).sh.sent
      = t.sh.sent ++ [t.ch.full_command] := by
  by_cases hcf : t.ch.confirm = false
  · rw [parseBuffer_ka_send_noconfirm pdisp pleds t hr hc hcf]
  · have hcf2 : t.ch.confirm = true := by simpa using hcf
    rw [parseBuffer_ka_send_confirm pdisp pleds t hr hc hcf2]

theorem display_count (pdisp pleds : List Nat → PoolModel → PoolModel)
    (t : Sys) :
    (parseBuffer pdisp pleds (withFrame t displayFrame)).ch.keep_alive_count
      = 0 := by
  rw [parseBuffer_display pdisp pleds t]

theorem display_sent (pdisp pleds : List Nat → PoolModel → PoolModel)
    (t : Sys) :
    (parseBuffer pdisp pleds (withFrame t displayFrame)).sh.sent
      = t.sh.sent := by
  rw [parseBuffer_display pdisp pleds t]
  rfl

theorem display_ready (pdisp pleds : List Nat → PoolModel → PoolModel)
    (t : Sys) :
    (parseBuffer pdisp pleds (withFrame t displayFrame)).sh.ready_to_send
      = t.sh.ready_to_send := by
  rw [parseBuffer_display pdisp pleds t]
  rfl

theorem display_full_command (pdisp pleds : List Nat → PoolModel → PoolModel)
    (t : Sys) :
    (parseBuffer pdisp pleds (withFrame t displayFrame)).ch.full_command
      = t.ch.full_command := by
  rw [parseBuffer_display pdisp pleds t]

/-- Two consecutive valid keep-alive frames processed from a ready state
whose heartbeat counter is not yet one produce exactly one transmission of
the pending command. -/
theorem sent_after_two_keepalives
    (pdisp pleds : List Nat → PoolModel → PoolModel) (s : Sys)
    (hready : s.sh.ready_to_send = true)
    (hcount : ¬s.ch.keep_alive_count = 1) :
    (parseBuffer pdisp pleds
        (withFrame (parseBuffer pdisp pleds (withFrame s kaFrame)) kaFrame)).sh.sent
      = s.sh.sent ++ [s.ch.full_command] := by
  have hr1 : (parseBuffer pdisp pleds (withFrame s kaFrame)).sh.ready_to_send
      = true := by
    rw [ka_first_ready pdisp pleds s hready hcount]
    exact hready
  rw [ka_send_sent pdisp pleds _ hr1 (ka_first_count pdisp pleds s hready hcount),
    ka_first_sent pdisp pleds s hready hcount,
    ka_first_full_command pdisp pleds s hready hcount]

/-- C1: for an armed, ready-to-send command whose arming zeroed the
heartbeat counter (initiateSend always zeroes it), no transmission occurs on
the first keep-alive frame processed after arming and the counter becomes
one while the ready flag stays up; transmission occurs exactly on the second
consecutive keep-alive; a valid non-keep-alive frame processed in between
resets the counter to zero without transmitting, after which the next
keep-alive still transmits nothing and only its successor transmits: two
fresh consecutive keep-alives are again required. -/
theorem c1_heartbeat_rule (pdisp pleds : List Nat → PoolModel → PoolModel)
    (s : Sys) (hready : s.sh.ready_to_send = true)
    (hcount : s.ch.keep_alive_count = 0) :
    (∀ (ch : CommandHandler) (now budget : Nat) (cid des : String)
      (conf : Bool),
      (ch.initiateSend now budget cid des conf).keep_alive_count = 0) ∧
    (parseBuffer pdisp pleds (withFrame s kaFrame)).sh.sent = s.sh.sent ∧
    (parseBuffer pdisp pleds (withFrame s kaFrame)).ch.keep_alive_count = 1 ∧
    (parseBuffer pdisp pleds (withFrame s kaFrame)).sh.ready_to_send = true ∧
    (parseBuffer pdisp pleds
        (withFrame (parseBuffer pdisp pleds (withFrame s kaFrame)) kaFrame)).sh.sent
      = s.sh.sent ++ [s.ch.full_command] ∧
    (parseBuffer pdisp pleds
        (withFrame (parseBuffer pdisp pleds (withFrame s kaFrame))
          displayFrame)).ch.keep_alive_count = 0 ∧
    (parseBuffer pdisp pleds
        (withFrame (parseBuffer pdisp pleds (withFrame s kaFrame))
          displayFrame)).sh.sent = s.sh.sent ∧
    (parseBuffer pdisp pleds
        (withFrame (parseBuffer pdisp pleds (withFrame s kaFrame))
          displayFrame)).sh.ready_to_send = true ∧
    (parseBuffer pdisp pleds
        (withFrame (parseBuffer pdisp pleds
          (withFrame (parseBuffer pdisp pleds (withFrame s kaFrame))
            displayFrame)) kaFrame)).sh.sent = s.sh.sent ∧
    (parseBuffer pdisp pleds
        (withFrame (parseBuffer pdisp pleds
          (withFrame (parseBuffer pdisp pleds
            (withFrame (parseBuffer pdisp pleds (withFrame s kaFrame))
              displayFrame)) kaFrame)) kaFrame)).sh.sent
      = s.sh.sent ++ [s.ch.full_command] := by
  have hne : ¬s.ch.keep_alive_count = 1 := by rw [hcount]; norm_num
  have hrX : (parseBuffer pdisp pleds
      (withFrame (parseBuffer pdisp pleds (withFrame s kaFrame))
        displayFrame)).sh.ready_to_send = true := by
    rw [display_ready pdisp pleds _, ka_first_ready pdisp pleds s hready hne]
    exact hready
  have hcX : ¬(parseBuffer pdisp pleds
      (withFrame (parseBuffer pdisp pleds (withFrame s kaFrame))
        displayFrame)).ch.keep_alive_count = 1 := by
    rw [display_count pdisp pleds _]
    norm_num
  refine ⟨fun ch now budget cid des conf => rfl, ?_, ?_, ?_, ?_, ?_, ?_, ?_,
    ?_, ?_⟩
  · exact ka_first_sent pdisp pleds s hready hne
  · exact ka_first_count pdisp pleds s hready hne
  · rw [ka_first_ready pdisp pleds s hready hne]
    exact hready
  · exact sent_after_two_keepalives pdisp pleds s hready hne
  · exact display_count pdisp pleds _
  · rw [display_sent pdisp pleds _]
    exact ka_first_sent pdisp pleds s hready hne
  · exact hrX
  · rw [ka_first_sent pdisp pleds _ hrX hcX, display_sent pdisp pleds _]
    exact ka_first_sent pdisp pleds s hready hne
  · rw [sent_after_two_keepalives pdisp pleds _ hrX hcX,
      display_sent pdisp pleds _, ka_first_sent pdisp pleds s hready hne,
      display_full_command pdisp pleds _,
      ka_first_full_command pdisp pleds s hready hne]

def s1w : Sys := { sysEx with sh := { shEx with ready_to_send := true } }

theorem c1_heartbeat_rule_witness :
    s1w.sh.ready_to_send = true ∧ s1w.ch.keep_alive_count = 0 ∧
    (parseBuffer decoderId decoderId (withFrame s1w kaFrame)).sh.sent
      = s1w.sh.sent ∧
    (parseBuffer decoderId decoderId
        (withFrame (parseBuffer decoderId decoderId (withFrame s1w kaFrame))
          kaFrame)).sh.sent = s1w.sh.sent ++ [s1w.ch.full_command] :=
  ⟨rfl, rfl, (c1_heartbeat_rule decoderId decoderId s1w rfl rfl).2.1,
    (c1_heartbeat_rule decoderId decoderId s1w rfl rfl).2.2.2.2.1⟩

/-- C4: a command that does not require confirmation is accepted straight
into awaiting the next transmission slot (the ready flag rises in the same
getCommand invocation, with no model-update or heartbeat precondition), and
once it is transmitted on a keep-alive slot the machine immediately returns
to idle: the in-flight flag drops together with the ready flag, and
checkCommand afterwards does nothing, so there is no retry and no
confirmation wait for that command. -/
theorem c4_fire_and_forget (bt bm : List String)
    (pdisp pleds : List Nat → PoolModel → PoolModel)
    (now budget : Nat) (cid : String) (v : Nat) (s : Sys)
    (hidle : s.ch.sending_message = false)
    (hver : v = s.pm.version)
    (hnt : bt.contains cid = false)
    (hns : ¬cid = idPoolSpaSpillover)
    (hm : bm.contains cid = true) :
    ((getCommand bt bm now budget (some (cid, v)) s).sh.ready_to_send = true ∧
      (getCommand bt bm now budget (some (cid, v)) s).ch.sending_message
        = true ∧
      (getCommand bt bm now budget (some (cid, v)) s).ch.confirm = false) ∧
    (∀ t : Sys, t.sh.ready_to_send = true → t.ch.keep_alive_count = 1 →
      t.ch.confirm = false →
      (parseBuffer pdisp pleds (withFrame t kaFrame)).sh.sent =
        t.sh.sent ++ [t.ch.full_command] ∧
      (parseBuffer pdisp pleds (withFrame t kaFrame)).ch.sending_message
        = false ∧
      (parseBuffer pdisp pleds (withFrame t kaFrame)).sh.ready_to_send
        = false ∧
      ∀ now2, checkCommand now2 (parseBuffer pdisp pleds (withFrame t kaFrame))
        = parseBuffer pdisp pleds (withFrame t kaFrame)) := by
  constructor
  · have hnt2 : ¬cid ∈ bt := by simpa using hnt
    have hm2 : cid ∈ bm := by simpa using hm
    unfold getCommand
    simp [hidle, hver, hnt2, hns, hm2, CommandHandler.initiateSend]
  · intro t ht1 ht2 ht3
    rw [parseBuffer_ka_send_noconfirm pdisp pleds t ht1 ht2 ht3]
    exact ⟨rfl, rfl, rfl, fun now2 => checkCommand_idle now2 _ rfl⟩

theorem c4_fire_and_forget_witness :
    sysEx.ch.sending_message = false ∧ (1 : Nat) = sysEx.pm.version ∧
    ([] : List String).contains idLeft = false ∧
    ¬idLeft = idPoolSpaSpillover ∧
    ([idLeft] : List String).contains idLeft = true ∧
    (getCommand [] [idLeft] 3 2 (some (idLeft, 1)) sysEx).sh.ready_to_send
      = true ∧
    (getCommand [] [idLeft] 3 2 (some (idLeft, 1)) sysEx).ch.confirm
      = false :=
  ⟨rfl, rfl, rfl, by decide, by decide,
    (c4_fire_and_forget [] [idLeft] decoderId decoderId 3 2 idLeft 1 sysEx rfl
      rfl rfl (by decide) (by decide)).1.1,
    (c4_fire_and_forget [] [idLeft] decoderId decoderId 3 2 idLeft 1 sysEx rfl
      rfl rfl (by decide) (by decide)).1.2.2⟩

theorem parseBuffer_keeps_target (pdisp pleds : List Nat → PoolModel → PoolModel)
    (t : Sys) :
    (parseBuffer pdisp pleds t).ch.target_state = t.ch.target_state := by
  simp only [parseBuffer]
  repeat' split
  all_goals rfl

theorem checkCommand_keeps_target (now2 : Nat) (t : Sys) :
    (checkCommand now2 t).ch.target_state = t.ch.target_state := by
  simp only [checkCommand, CommandHandler.sendAttemptsRemain]
  repeat' split
  all_goals rfl

/-- C8: for an accepted confirmation-required command the desired value is
computed from the parameter state observed at arm time: the tri-state
service parameter cycles ON to BLINK, BLINK to OFF and every other observed
state to ON, while every other parameter toggles an observed ON to OFF and
every other observed state to ON; the stored desired value is never
recomputed afterwards, since neither parseBuffer nor checkCommand ever
changes it. -/
theorem c8_toggle_resolution (bt bm : List String) (now budget : Nat)
    (cid : String) (v : Nat) (s : Sys)
    (hidle : s.ch.sending_message = false)
    (hver : v = s.pm.version)
    (ht : bt.contains cid = true)
    (hns : ¬cid = idPoolSpaSpillover)
    (hinit : ¬s.pm.getParameterState cid = stINIT) :
    ((getCommand bt bm now budget (some (cid, v)) s).ch.target_state =
      (if cid = idService then
        (if s.pm.getParameterState cid = stON then stBLINK
         else if s.pm.getParameterState cid = stBLINK then stOFF else stON)
       else
        (if s.pm.getParameterState cid = stON then stOFF else stON))) ∧
    (getCommand bt bm now budget (some (cid, v)) s).ch.sending_message
      = true ∧
    (getCommand bt bm now budget (some (cid, v)) s).ch.confirm = true ∧
    (∀ (pdisp pleds : List Nat → PoolModel → PoolModel) (t : Sys),
      (parseBuffer pdisp pleds t).ch.target_state = t.ch.target_state) ∧
    (∀ (now2 : Nat) (t : Sys),
      (checkCommand now2 t).ch.target_state = t.ch.target_state) := by
  have ht2 : cid ∈ bt := by simpa using ht
  refine ⟨?_, ?_, ?_, parseBuffer_keeps_target, checkCommand_keeps_target⟩ <;>
    unfold getCommand <;>
    simp [hidle, hver, ht2, hns, hinit, CommandHandler.initiateSend]

theorem c8_toggle_resolution_witness :
    sysEx.ch.sending_message = false ∧ (1 : Nat) = sysEx.pm.version ∧
    ([idService] : List String).contains idService = true ∧
    ¬idService = idPoolSpaSpillover ∧
    ¬sysEx.pm.getParameterState idService = stINIT ∧
    (getCommand [idService] [] 3 2 (some (idService, 1)) sysEx).ch.target_state
      = (if idService = idService then
          (if sysEx.pm.getParameterState idService = stON then stBLINK
           else if sysEx.pm.getParameterState idService = stBLINK then stOFF
           else stON)
         else
          (if sysEx.pm.getParameterState idService = stON then stOFF
           else stON)) :=
  ⟨rfl, rfl, by decide, by decide, by decide,
    (c8_toggle_resolution [idService] [] 3 2 idService 1 sysEx rfl rfl
      (by decide) (by decide) (by decide)).1⟩

/-- Decoder standing for the display parser in the retry-bound trace: every
display update advances the model timestamp by one and reports every
parameter OFF, so that the armed command with desired value ON never
matches. -/
def noMatchDecoder : List Nat → PoolModel → PoolModel :=
  fun _ pm => { pm with timestamp := pm.timestamp + 1, params := fun _ => stOFF }

/-- Initial state of the retry-bound trace: a confirmation-required command
for parameter pool with desired value ON, armed with a budget of N
attempts. -/
def c9Start (N : Nat) : Sys :=
  { pm := pmEx, sh := shEx, ch := chEx.initiateSend 0 N idPool stON true }

/-- One retry round of the main loop at frame granularity: a fresh display
update frame is parsed, checkCommand runs at the new model time, then two
keep-alive frames are parsed. -/
def c9Round (s : Sys) : Sys :=
  let s1 := parseBuffer noMatchDecoder noMatchDecoder (withFrame s displayFrame)
  let s2 := checkCommand s1.pm.timestamp s1
  let s3 := parseBuffer noMatchDecoder noMatchDecoder (withFrame s2 kaFrame)
  parseBuffer noMatchDecoder noMatchDecoder (withFrame s3 kaFrame)

/-- The retry-bound trace after k rounds. -/
def c9Run (N : Nat) : Nat → Sys
  | 0 => c9Start N
  | k + 1 => c9Round (c9Run N k)

/-- Closed form of the retry-bound trace after k rounds. -/
def c9State (N k : Nat) : Sys :=
  { pm :=
      { timestamp := k
        version := 1
        params := fun _ => stOFF
        sending_message := false
        flag_data_changed := false }
    sh :=
      { buffer := []
        buffer_full := false
        looking_for_start := true
        ready_to_send := false
        sent := List.replicate (min k N) (encodeCommand idPool) }
    ch :=
      { keep_alive_count := if k = 0 ∨ N < k then 0 else 1
        sending_message := if k ≤ N then true else false
        confirm := true
        parameter := idPool
        target_state := stON
        full_command := encodeCommand idPool
        last_model_timestamp_seen := min k N
        attempts_remaining := N - k } }

theorem stOFF_ne_stON : ¬stOFF = stON := by decide

theorem c9Round_retry (N k : Nat) (hlt : k < N) :
    c9Round (c9State N k) = c9State N (k + 1) := by
  have hkN : k ≤ N := Nat.le_of_lt hlt
  have hlt1 : k + 1 ≤ N := hlt
  have hpos : 0 < N - k := by omega
  have hnk : ¬N < k + 1 := by omega
  have hsucc : k ≤ k + 1 := Nat.le_succ k
  simp [c9Round, c9State, parseBuffer, withFrame, checkCommand,
    CommandHandler.sendAttemptsRemain, SerialHandler.reset, SerialHandler.send,
    noMatchDecoder, PoolModel.getParameterState,
    displayFrame_no_stx, displayFrame_no_etx, displayFrame_checksum,
    displayFrame_type, display_ne_ka, displayFrame_data,
    kaFrame_no_stx, kaFrame_no_etx, kaFrame_checksum, kaFrame_type,
    stOFF_ne_stON, hkN, hlt1, hpos, hnk, hsucc,
    Nat.min_eq_left hkN, Nat.min_eq_left hlt1, Nat.sub_sub,
    List.replicate_succ']

theorem c9Round_abandon (N : Nat) :
    c9Round (c9State N N) = c9State N (N + 1) := by
  have hNN : N ≤ N := Nat.le_refl N
  have hn1 : ¬N + 1 ≤ N := by omega
  have hlt1 : N < N + 1 := Nat.lt_succ_self N
  simp [c9Round, c9State, parseBuffer, withFrame, checkCommand,
    CommandHandler.sendAttemptsRemain, SerialHandler.reset, SerialHandler.send,
    noMatchDecoder, PoolModel.getParameterState,
    displayFrame_no_stx, displayFrame_no_etx, displayFrame_checksum,
    displayFrame_type, display_ne_ka, displayFrame_data,
    kaFrame_no_stx, kaFrame_no_etx, kaFrame_checksum, kaFrame_type,
    stOFF_ne_stON, hNN, hn1, hlt1,
    Nat.min_self, Nat.min_eq_right (Nat.le_succ N),
    Nat.sub_eq_zero_of_le (Nat.le_succ N)]

theorem c9Round_dead (N k : Nat) (hgt : N < k) :
    c9Round (c9State N k) = c9State N (k + 1) := by
  have hnot : ¬k ≤ N := by omega
  have hgt1 : N < k + 1 := by omega
  have hle : N ≤ k := Nat.le_of_lt hgt
  have hle1 : N ≤ k + 1 := by omega
  simp [c9Round, c9State, parseBuffer, withFrame, checkCommand,
    CommandHandler.sendAttemptsRemain, SerialHandler.reset, SerialHandler.send,
    noMatchDecoder, PoolModel.getParameterState,
    displayFrame_no_stx, displayFrame_no_etx, displayFrame_checksum,
    displayFrame_type, display_ne_ka, displayFrame_data,
    kaFrame_no_stx, kaFrame_no_etx, kaFrame_checksum, kaFrame_type,
    stOFF_ne_stON, hnot, hgt, hgt1,
    Nat.min_eq_right hle, Nat.min_eq_right hle1,
    Nat.sub_eq_zero_of_le hle, Nat.sub_eq_zero_of_le hle1]

set_option maxRecDepth 4000 in
theorem c9Run_eq (N k : Nat) : c9Run N k = c9State N k := by
  induction k with
  | zero =>
    simp only [c9Run]
    unfold c9Start c9State pmEx shEx chEx CommandHandler.initiateSend
    simp
  | succ k ih =>
    simp only [c9Run]
    rw [ih]
    rcases Nat.lt_trichotomy k N with hlt | heqN | hgt
    · rw [c9Round_retry N k hlt]
    · subst heqN
      rw [c9Round_abandon k]
    · rw [c9Round_dead N k hgt]

/-- C9: along the retry-bound trace, where a confirmation-required command
armed with a budget of N attempts never sees its target parameter reach the
desired value, the transmission log after k rounds holds exactly min k N
copies of the framed command: the command is transmitted exactly N times and
never an N plus first time, and the machine has dropped the command back to
idle (abandoned) exactly when more than N rounds have elapsed. -/
theorem c9_retry_bound (N k : Nat) :
    (c9Run N k).sh.sent = List.replicate (min k N) (encodeCommand idPool) ∧
    (c9Run N k).sh.sent.length = min k N ∧
    ((c9Run N k).ch.sending_message = true ↔ k ≤ N) := by
  rw [c9Run_eq]
  refine ⟨rfl, by simp [c9State], ?_⟩
  simp only [c9State]
  split
  · simp_all
  · simp_all

end PoolPi
